import Mathlib

/-!
Shallow embedding of the combat-session orchestration subsystem of the
wlc-coordinator-server repository: the `CombatManager` registry, the
`LobbyService` lobby index and socket admission, the preset-cooking
pipeline (`cookPresetFromDB` / `cookPresetFromRequest`), and the
`DatabaseService` validation and lookup operations.

JavaScript `Map` objects and plain objects used as string-keyed records are
modelled as association lists with insert-or-replace (`mset`), lookup
(`mget`) and delete (`mdel`), matching `Map.set` / `Map.get` / `Map.delete`
(and object property assignment) semantics.  The document store and the
auth collaborator are external (§1 of the spec); they are passed in as
environments (`DB`, a `verify` function).  Asynchronous code in the source
is sequential in every function embedded here, so it is modelled by plain
sequential composition; thrown `BadRequest` / `NotFound` errors become an
`Except Err` result.
-/

namespace WLC

/-- Lookup in an association list, i.e. `Map.get` / object indexing. -/
def mget {α : Type} (m : List (String × α)) (k : String) : Option α :=
  (m.find? (fun p => p.1 == k)).map Prod.snd

/-- Insert-or-replace, i.e. `Map.set` / object property assignment: an
existing key keeps its position, a new key is appended. -/
def mset {α : Type} (m : List (String × α)) (k : String) (v : α) : List (String × α) :=
  match m with
  | [] => [(k, v)]
  | (k1, v1) :: rest => if k1 == k then (k, v) :: rest else (k1, v1) :: mset rest k v

/-- Key removal, i.e. `Map.delete`. -/
def mdel {α : Type} (m : List (String × α)) (k : String) : List (String × α) :=
  m.filter (fun p => p.1 != k)

/-- JavaScript `a || b` on strings: the empty string is falsy. -/
def jsOrStr (a b : String) : String :=
  if a = "" then b else a

/-! ## Data model (src/models) -/

/-- Pawn source discriminator, `'dlc' | 'embedded'` from `ServerModels.ts`. -/
inductive Source where
  | dlc
  | embedded
deriving DecidableEq

/-- `ControlInfo` tagged union from `ServerModels.ts`. -/
inductive ControlInfo where
  | player (id : Option String)
  | ai (id : String)
  | game_logic
deriving DecidableEq

/-- One pawn of a stored combat preset, the element type of the `field`
array taken by `DatabaseService.createNewCombatPreset` and read back by
`cookPresetFromDB`. -/
structure PresetPawn where
  path : String
  square : String
  source : Source
  controlled_by : ControlInfo
deriving DecidableEq

/-- Stored combat preset document (`CombatClass`). -/
structure CombatClass where
  field : List PresetPawn
deriving DecidableEq

/-- `CharacterDecorationsClass` from `CharacterModel.ts`. -/
structure CharacterDecorationsClass where
  name : String
  description : String
  sprite : String
deriving DecidableEq

/-- Character / entity document (`CharacterClass`).  Only the fields read
by the operations embedded here are carried (`descriptor`, `decorations`);
`decorations` is optional because the readers guard it with `?.`. -/
structure CharacterClass where
  descriptor : String
  decorations : Option CharacterDecorationsClass
deriving DecidableEq

/-- `PlayerClass` from `LobbyModel.ts`. -/
structure PlayerClass where
  userId : String
  nickname : String
  characterId : Option String
deriving DecidableEq

/-- Lobby document (`LobbyClass` from `LobbyModel.ts`). -/
structure LobbyClass where
  name : String
  gm_id : String
  players : List PlayerClass
  relatedPresets : List String
deriving DecidableEq

/-- User document.  `UserModel` is declared outside the provided sources;
the embedded code reads only `handle`. -/
structure UserClass where
  handle : String
deriving DecidableEq

/-- `entity_preset` part of a cooked field pawn (`GamePreset` in
`ServerModels.ts`). -/
structure EntityPreset where
  source : Source
  name : String
deriving DecidableEq

/-- One cooked field pawn: entity reference plus controller. -/
structure PawnEntry where
  entity_preset : EntityPreset
  owner : ControlInfo
deriving DecidableEq

/-- Cooked battlefield seed (`GamePreset` from `ServerModels.ts`).  The two
string-keyed records are association lists under object-assignment
semantics (`mset`). -/
structure GamePreset where
  field_pawns : List (String × PawnEntry)
  custom_entities : List (String × CharacterClass)
deriving DecidableEq

/-- Error taxonomy from `models/ErrorModels` as used by the embedded code. -/
inductive Err where
  | NotFound (msg : String)
  | BadRequest (msg : String)
  | InternalServerError
deriving DecidableEq

/-- The document store, the external storage collaborator (§6 of the spec):
each collection is a partial map from opaque string identifier to document,
`none` meaning the document is absent.  `entities` backs
`DatabaseService.getEntity`, which the spec lists as a storage lookup. -/
structure DB where
  lobbies : String → Option LobbyClass
  users : String → Option UserClass
  characters : String → Option CharacterClass
  combatPresets : String → Option CombatClass
  entities : String → Option CharacterClass

/-! ## DatabaseService lookups and preset creation (part_001) -/

/-- `DatabaseService.getLobby`: guards a falsy id, then `findOne`, which
resolves to `null` when no document matches. -/
def DatabaseService.getLobby (db : DB) (lobbyId : String) : Option LobbyClass :=
  if lobbyId = "" then none else db.lobbies lobbyId

/-- `DatabaseService.getUser`. -/
def DatabaseService.getUser (db : DB) (userId : String) : Option UserClass :=
  db.users userId

/-- `DatabaseService.getCharacter`. -/
def DatabaseService.getCharacter (db : DB) (characterId : String) : Option CharacterClass :=
  db.characters characterId

/-- `DatabaseService.getCombatPreset`. -/
def DatabaseService.getCombatPreset (db : DB) (combatPresetId : String) : Option CombatClass :=
  db.combatPresets combatPresetId

/-- `DatabaseService.getEntity`, the storage lookup the cooking pipeline
and `getLobbyInfo` call; it is listed in §6 of the spec alongside
`getCharacter` and, like the other lookups, resolves to `null` for an
absent document. -/
def DatabaseService.getEntity (db : DB) (entityId : String) : Option CharacterClass :=
  db.entities entityId

/-- The duplicate-square scan inside `DatabaseService.createNewCombatPreset`:
walk the pawns, accumulating `occupiedSquares`, and throw `BadRequest` on
the first square already seen. -/
def checkOccupiedSquares : List PresetPawn → List String → Except Err Unit
  | [], _ => Except.ok ()
  | pawn :: rest, occupiedSquares =>
    if occupiedSquares.contains pawn.square then
      Except.error (Err.BadRequest "Multiple pawns on the same square")
    else
      checkOccupiedSquares rest (occupiedSquares ++ [pawn.square])

/-- `DatabaseService.createNewCombatPreset`: validates the squares, then
persists the document (the write itself belongs to the external store; the
validated document is returned here). -/
def DatabaseService.createNewCombatPreset (field : List PresetPawn) :
    Except Err (List PresetPawn) :=
  (checkOccupiedSquares field []).map (fun _ => field)

/-! ## Preset cooking pipeline (part_003) -/

/-- The per-pawn loop of `cookPresetFromDB`: place the pawn under its
square (object assignment, later pawns replace earlier ones on the same
key), and for an embedded pawn resolve the referenced entity, throwing
`NotFound` when it is absent. -/
def cookFieldPawnsFromDB (db : DB) : List PresetPawn → GamePreset → Except Err GamePreset
  | [], result => Except.ok result
  | pawn :: rest, result =>
    let placed : GamePreset :=
      { result with
          field_pawns := mset result.field_pawns pawn.square
            { entity_preset := { source := pawn.source, name := pawn.path },
              owner := pawn.controlled_by } }
    match pawn.source with
    | Source.embedded =>
      match DatabaseService.getEntity db pawn.path with
      | none => Except.error (Err.NotFound "Entity not found")
      | some customEntity =>
        cookFieldPawnsFromDB db rest
          { placed with custom_entities := mset placed.custom_entities pawn.path customEntity }
    | Source.dlc => cookFieldPawnsFromDB db rest placed

/-- `cookPresetFromDB`: read the stored preset (resolving to `null` when
absent), then cook its pawn array. -/
def cookPresetFromDB (db : DB) (combatPreset : String) : Except Err (Option GamePreset) :=
  match DatabaseService.getCombatPreset db combatPreset with
  | none => Except.ok none
  | some presetFromDB =>
    (cookFieldPawnsFromDB db presetFromDB.field
      { field_pawns := [], custom_entities := [] }).map some

/-- One pawn of an inline (requested) preset: the value type of the
square-keyed `field` record taken by `cookPresetFromRequest`. -/
structure RequestPawn where
  path : String
  source : Source
  controlledBy : ControlInfo
deriving DecidableEq

/-- The per-entry loop of `cookPresetFromRequest` over
`Object.entries(combatPreset.field)`. -/
def cookFieldPawnsFromRequest (db : DB) :
    List (String × RequestPawn) → GamePreset → Except Err GamePreset
  | [], result => Except.ok result
  | (square, pawn) :: rest, result =>
    let placed : GamePreset :=
      { result with
          field_pawns := mset result.field_pawns square
            { entity_preset := { source := pawn.source, name := pawn.path },
              owner := pawn.controlledBy } }
    match pawn.source with
    | Source.embedded =>
      match DatabaseService.getEntity db pawn.path with
      | none => Except.error (Err.NotFound "Entity not found")
      | some customEntity =>
        cookFieldPawnsFromRequest db rest
          { placed with custom_entities := mset placed.custom_entities pawn.path customEntity }
    | Source.dlc => cookFieldPawnsFromRequest db rest placed

/-- `cookPresetFromRequest`: cook an inline preset; its `field` is a
square-keyed record, so each square appears at most once in the input. -/
def cookPresetFromRequest (db : DB) (field : List (String × RequestPawn)) :
    Except Err GamePreset :=
  cookFieldPawnsFromRequest db field { field_pawns := [], custom_entities := [] }

/-! ## CombatConnection (session runtime state)

`CombatConnection.ts` is not among the provided sources; only its callers
are.  Its state and the operations `isPlayerInCombat`, `handlePlayer`,
`isActive`, `getRoundCount` are modelled from the spec. -/

/-- Modelled from the spec: `CombatSession` state (§4.3), the
`CombatConnection` class whose source file is missing.  It holds the
nickname, seed, gm, roster and, per §4.3, a connection map
`playerId → live connection` (at most one per player), a round counter
starting at 0, and an active flag (`Pending`/`Active` collapse to the
`isActive()` predicate the spec requires).  Live connections are
identified by a socket number.  The removal callback the constructor
receives is not stored here; its semantics are the `removeSelf` state
transformer below, instantiated with the lobby and session id the closure
captured at creation. -/
structure CombatConnection where
  combatNickname : String
  preset : GamePreset
  gm_id : String
  players : List String
  connections : List (String × Nat)
  roundCount : Nat
  active : Bool
deriving DecidableEq

/-- Modelled from the spec: `isPlayerInCombat(playerId)` reflects whether
the player currently has an attached connection, not mere roster
membership (§4.3). -/
def CombatConnection.isPlayerInCombat (c : CombatConnection) (playerId : String) : Bool :=
  (mget c.connections playerId).isSome

/-- Modelled from the spec: `handlePlayer(playerId, connection)` records
the connection as the live channel for the player (§4.3). -/
def CombatConnection.handlePlayer (c : CombatConnection) (playerId : String) (socket : Nat) :
    CombatConnection :=
  { c with connections := mset c.connections playerId socket }

/-- Modelled from the spec: the `isActive()` predicate (§4.3). -/
def CombatConnection.isActive (c : CombatConnection) : Bool :=
  c.active

/-- Modelled from the spec: the `getRoundCount()` accessor (§4.3). -/
def CombatConnection.getRoundCount (c : CombatConnection) : Nat :=
  c.roundCount

/-- Modelled from the spec: `CombatManager.getPlayersInCombat`, absent from
the provided `CombatManager.ts` but called by `getLobbyInfo`; §4.5 reads it
as the session's connected-player set. -/
def CombatConnection.getPlayersInCombat (c : CombatConnection) : List String :=
  c.connections.map Prod.fst

/-- Modelled from the spec: the state a freshly constructed
`CombatConnection` starts in — no admitted connections, round count 0, not
yet active (§4.3 `Pending`, §8: after `createCombat`, `roundCount == 0` and
`isActive() == false`). -/
def CombatConnection.new (combatNickname : String) (preset : GamePreset)
    (gm_id : String) (players : List String) : CombatConnection :=
  { combatNickname := combatNickname, preset := preset, gm_id := gm_id,
    players := players, connections := [], roundCount := 0, active := false }

/-! ## CombatManager (src/services/CombatManager.ts) -/

/-- State of the `CombatManager` singleton: the session index and the
`managedSoFar` counter. -/
structure CombatManagerState where
  combats : List (String × CombatConnection)
  managedSoFar : Nat
deriving DecidableEq

/-- `CombatManager.get`: pure lookup in the session index. -/
def CombatManager.get (cm : CombatManagerState) (combat_id : String) : Option CombatConnection :=
  mget cm.combats combat_id

/-- `CombatManager.createCombat`: allocates `(managedSoFar++).toString()`
as the session id, stores a fresh `CombatConnection` under it, and returns
the id. -/
def CombatManager.createCombat (cm : CombatManagerState) (combatNickname : String)
    (preset : GamePreset) (gm_id : String) (players : List String) :
    String × CombatManagerState :=
  let combat_id := toString cm.managedSoFar
  (combat_id,
    { combats := mset cm.combats combat_id
        (CombatConnection.new combatNickname preset gm_id players),
      managedSoFar := cm.managedSoFar + 1 })

/-! ## LobbyService (part_002) -/

/-- Combined mutable state of the two service singletons: the
`CombatManager` registry and `LobbyService.managingCombats`, the per-lobby
list of session ids. -/
structure ServerState where
  cm : CombatManagerState
  managingCombats : List (String × List String)
deriving DecidableEq

/-- `LobbyService.getActiveCombats`: `managingCombats.get(lobby_id) || []`. -/
def LobbyService.getActiveCombats (st : ServerState) (lobby_id : String) : List String :=
  (mget st.managingCombats lobby_id).getD []

/-- `LobbyService.createCombat`: ensure the lobby has a combat list, then
ask the registry for a session (passing the cleanup closure whose
semantics are `LobbyService.onDeleted`), push the new id onto the lobby's
list and return it; the `null` branch is taken only if the list lookup
after the `set` fails. -/
def LobbyService.createCombat (st : ServerState) (lobby_id combatNickname : String)
    (preset : GamePreset) (gm_id : String) (players : List String) :
    Option String × ServerState :=
  let m1 := mset st.managingCombats lobby_id ((mget st.managingCombats lobby_id).getD [])
  match mget m1 lobby_id with
  | some combats =>
    let created := CombatManager.createCombat st.cm combatNickname preset gm_id players
    (some created.1,
      { cm := created.2, managingCombats := mset m1 lobby_id (combats ++ [created.1]) })
  | none => (none, { st with managingCombats := m1 })

/-- The cleanup closure `LobbyService.createCombat` hands to the registry:
look up the index of the captured session id in the captured lobby array
(`indexOf`) and, when present, `splice` it out — i.e. erase the first
occurrence.  The array is captured by reference and is exactly the value
stored under `lobby_id` (entries of `managingCombats` are never replaced,
only mutated in place). -/
def LobbyService.onDeleted (st : ServerState) (lobby_id combatId : String) : ServerState :=
  match mget st.managingCombats lobby_id with
  | none => st
  | some combats =>
    { st with managingCombats := mset st.managingCombats lobby_id (combats.erase combatId) }

/-- First half of the registry's `removeSelf` closure: delete the session
from the `CombatManager` index. -/
def CombatManager.deleteFromIndex (st : ServerState) (combat_id : String) : ServerState :=
  { st with cm := { st.cm with combats := mdel st.cm.combats combat_id } }

/-- The session's removal callback, the `removeSelf` closure built in
`CombatManager.createCombat`: delete the session from the registry index
first, then invoke the caller-supplied `onDeleted` cleanup hook (here the
lobby-index pruning closure captured over `lobby_id` and `combat_id`). -/
def removeSelf (st : ServerState) (lobby_id combat_id : String) : ServerState :=
  LobbyService.onDeleted (CombatManager.deleteFromIndex st combat_id) lobby_id combat_id

/-! ## Socket admission (LobbyService.manageSocket) -/

/-- Observable effects of one admission attempt on the attempting socket,
plus the resulting server state: the events emitted to the socket, whether
it was disconnected, and whether `handlePlayer` was invoked for it. -/
structure AdmissionResult where
  emitted : List String
  disconnected : Bool
  attached : Bool
  st : ServerState
deriving DecidableEq

/-- `LobbyService.manageSocket`: resolve the session (absent → disconnect),
verify the access token via the auth collaborator `verify` (`none` models
`verifyAccessToken` throwing; on failure emit `"invalid_token"` and
disconnect), reject an already-connected player (disconnect), otherwise
attach via `handlePlayer`. -/
def LobbyService.manageSocket (verify : String → Option String) (st : ServerState)
    (socket : Nat) (combat_id userToken : String) : AdmissionResult :=
  match CombatManager.get st.cm combat_id with
  | none => { emitted := [], disconnected := true, attached := false, st := st }
  | some combat =>
    match verify userToken with
    | none => { emitted := ["invalid_token"], disconnected := true, attached := false, st := st }
    | some user_id =>
      if combat.isPlayerInCombat user_id then
        { emitted := [], disconnected := true, attached := false, st := st }
      else
        { emitted := [], disconnected := false, attached := true,
          st := { st with cm := { st.cm with
            combats := mset st.cm.combats combat_id (combat.handlePlayer user_id socket) } } }

/-! ## Lobby info aggregation (LobbyService.getLobbyInfo) -/

/-- One element of `activePlayers` in the aggregated combat info. -/
structure ActivePlayerInfo where
  handle : String
  nickname : String
deriving DecidableEq

/-- Aggregated per-combat entry of `LobbyInfo.combats`. -/
structure CombatInfo where
  nickname : String
  isActive : Bool
  roundCount : Nat
  _id : String
  activePlayers : List ActivePlayerInfo
deriving DecidableEq

/-- The `player` sub-object of a `LobbyInfo` players entry. -/
structure PlayerSlotInfo where
  handle : String
  avatar : String
  userId : String
  nickname : String
deriving DecidableEq

/-- Character summary produced by the local `getCharacter` helper. -/
structure CharacterLite where
  name : String
  sprite : String
deriving DecidableEq

/-- One entry of `LobbyInfo.players`. -/
structure LobbyPlayerEntry where
  player : PlayerSlotInfo
  character : Option CharacterLite
deriving DecidableEq

/-- `controlledEntity` of `LobbyInfo`. -/
structure ControlledEntity where
  name : String
  id : String
deriving DecidableEq

/-- `LobbyInfo` as assembled by `getLobbyInfo`. -/
structure LobbyInfo where
  name : String
  lobbyId : String
  combats : List CombatInfo
  gm : String
  players : List LobbyPlayerEntry
  layout : String
  controlledEntity : Option ControlledEntity
deriving DecidableEq

/-- The combat aggregation inside `getLobbyInfo`.  The source iterates the
lobby's combat array with `for (const combat_id in combats)`: a `for..in`
loop over an array enumerates its index strings `"0" .. "length-1"`, and
each index string is what gets passed to `CombatManager.get` and recorded
as `_id`.  A session id that does not resolve is skipped. -/
def LobbyService.combatInfoAggregation (st : ServerState) (db : DB) (lobby : LobbyClass)
    (lobby_id : String) : List CombatInfo :=
  match mget st.managingCombats lobby_id with
  | none => []
  | some combats =>
    (List.range combats.length).filterMap (fun i =>
      let combat_id := toString i
      match CombatManager.get st.cm combat_id with
      | none => none
      | some combat =>
        some { nickname := jsOrStr combat.combatNickname "",
               isActive := combat.isActive || false,
               roundCount := if combat.isActive then combat.getRoundCount else 0,
               _id := jsOrStr combat_id "",
               activePlayers := combat.getPlayersInCombat.map (fun playerId =>
                 { handle := ((DatabaseService.getUser db playerId).map UserClass.handle).getD "",
                   nickname := ((lobby.players.find? (fun p => p.userId == playerId)).map
                     PlayerClass.nickname).getD "" }) })

/-- The local `getCharacter` helper of `getLobbyInfo`: resolve the entity
and fall back to `descriptor.name` / `descriptor.sprite` when decorations
are missing or empty. -/
def LobbyService.getCharacterLite (db : DB) (characterId : String) : Option CharacterLite :=
  match DatabaseService.getEntity db characterId with
  | none => none
  | some entity =>
    some { name := jsOrStr (((entity.decorations).map
             CharacterDecorationsClass.name).getD "") (entity.descriptor ++ ".name"),
           sprite := jsOrStr (((entity.decorations).map
             CharacterDecorationsClass.sprite).getD "") (entity.descriptor ++ ".sprite") }

/-- `LobbyService.getLobbyInfo`.  The source takes `user` and `player`
objects; only `user._id` and `player.mainCharacter` are read, so they are
the parameters here (`mainCharacter = none` models a falsy field). -/
def LobbyService.getLobbyInfo (st : ServerState) (db : DB) (lobby_id : String)
    (user_id : String) (mainCharacter : Option String) : LobbyInfo :=
  match DatabaseService.getLobby db lobby_id with
  | none =>
    { name := "Lobby not found", lobbyId := lobby_id, combats := [], gm := "",
      players := [], layout := "default", controlledEntity := none }
  | some lobby =>
    let combatInfo := LobbyService.combatInfoAggregation st db lobby lobby_id
    let controlled : Option ControlledEntity :=
      match mainCharacter with
      | none => none
      | some mc =>
        if mc = "" then none
        else
          match DatabaseService.getEntity db mc with
          | some entity => some { name := entity.descriptor, id := mc }
          | none => none
    let players := lobby.players.map (fun p =>
      { player := { handle := ((DatabaseService.getUser db p.userId).map
                     UserClass.handle).getD "",
                    avatar := "", userId := p.userId, nickname := p.nickname },
        character :=
          match p.characterId with
          | none => none
          | some cid => if cid = "" then none else LobbyService.getCharacterLite db cid })
    { name := lobby.name, lobbyId := lobby_id, combats := combatInfo, gm := lobby.gm_id,
      players := players,
      layout := if user_id = lobby.gm_id then "gm" else "default",
      controlledEntity := controlled }

/-! ## Operation traces over the two services -/

/-- The state-mutating operations of the embedded subsystem: creating a
combat, a session's removal callback firing, and a socket admission
attempt. -/
inductive Op where
  | create (lobby_id combatNickname : String) (preset : GamePreset)
      (gm_id : String) (players : List String)
  | remove (lobby_id combat_id : String)
  | attemptSocket (combat_id userToken : String) (socket : Nat)

/-- Effect of one operation on the server state. -/
def stepOp (verify : String → Option String) (st : ServerState) : Op → ServerState
  | Op.create lobby_id nick preset gm_id players =>
    (LobbyService.createCombat st lobby_id nick preset gm_id players).2
  | Op.remove lobby_id combat_id => removeSelf st lobby_id combat_id
  | Op.attemptSocket combat_id userToken socket =>
    (LobbyService.manageSocket verify st socket combat_id userToken).st

/-- Effect of a sequence of operations. -/
def runOps (verify : String → Option String) : List Op → ServerState → ServerState
  | [], st => st
  | op :: ops, st => runOps verify ops (stepOp verify st op)

/-! ## Concrete fixtures used to evaluate the definitions -/

/-- Empty battlefield seed. -/
def gpEmpty : GamePreset :=
  { field_pawns := [], custom_entities := [] }

/-- A store with no documents at all. -/
def dbEmpty : DB :=
  { lobbies := fun _ => none, users := fun _ => none, characters := fun _ => none,
    combatPresets := fun _ => none, entities := fun _ => none }

/-- A dlc pawn on square `A1`. -/
def pawnDupA : PresetPawn :=
  { path := "hero", square := "A1", source := Source.dlc,
    controlled_by := ControlInfo.game_logic }

/-- A second dlc pawn claiming the same square `A1`. -/
def pawnDupB : PresetPawn :=
  { path := "orc", square := "A1", source := Source.dlc,
    controlled_by := ControlInfo.game_logic }

/-- A stored preset whose two pawns share square `A1`. -/
def presetDup : CombatClass :=
  { field := [pawnDupA, pawnDupB] }

/-- A store holding `presetDup` under id `"dup"`. -/
def dbDup : DB :=
  { dbEmpty with combatPresets := fun id => if id = "dup" then some presetDup else none }

/-- The seed `cookPresetFromDB` actually produces for `presetDup`: the
second pawn has overwritten the first under the shared key. -/
def gpDup : GamePreset :=
  { field_pawns := [("A1",
      { entity_preset := { source := Source.dlc, name := "orc" },
        owner := ControlInfo.game_logic })],
    custom_entities := [] }

/-- An embedded pawn whose referenced entity is nowhere in storage. -/
def pawnGhost : PresetPawn :=
  { path := "ghost", square := "B2", source := Source.embedded,
    controlled_by := ControlInfo.player (some "p1") }

/-- A stored preset containing the dangling embedded pawn. -/
def presetGhost : CombatClass :=
  { field := [pawnGhost] }

/-- A store holding `presetGhost` under id `"gpre"` and no entities. -/
def dbGhost : DB :=
  { dbEmpty with combatPresets := fun id => if id = "gpre" then some presetGhost else none }

/-- The same dangling reference as an inline (requested) preset. -/
def reqGhost : List (String × RequestPawn) :=
  [("B2", { path := "ghost", source := Source.embedded,
            controlledBy := ControlInfo.game_logic })]

/-- An auth collaborator that rejects every token. -/
def verifyNone : String → Option String :=
  fun _ => none

/-- An auth collaborator accepting exactly the token `"tok1"` of player
`"p1"`. -/
def verifyOne : String → Option String :=
  fun t => if t = "tok1" then some "p1" else none

/-- Initial state of the two services: empty registry, empty lobby index. -/
def stEmpty : ServerState :=
  { cm := { combats := [], managedSoFar := 0 }, managingCombats := [] }

/-- A freshly created session with no admitted connections. -/
def sessionIdle : CombatConnection :=
  CombatConnection.new "Duel" gpEmpty "gm1" ["p1"]

/-- State after one combat was created for lobby `"lobbyA"`: session `"0"`
in the registry, listed under the lobby. -/
def stOne : ServerState :=
  { cm := { combats := [("0", sessionIdle)], managedSoFar := 1 },
    managingCombats := [("lobbyA", ["0"])] }

/-- An active session with one connected player, registered under id `"1"`. -/
def sessionBoss : CombatConnection :=
  { combatNickname := "Boss Fight", preset := gpEmpty, gm_id := "gm1",
    players := ["p1"], connections := [("p1", 5)], roundCount := 2, active := true }

/-- State reached by creating combat `"0"` for `"lobbyX"` and combat `"1"`
for `"lobbyL"`, then letting session `"0"` finish: the registry holds only
session `"1"`, and lobby `"lobbyL"` lists exactly `["1"]`. -/
def stTwoLobbies : ServerState :=
  { cm := { combats := [("1", sessionBoss)], managedSoFar := 2 },
    managingCombats := [("lobbyX", []), ("lobbyL", ["1"])] }

/-- The lobby roster document backing `"lobbyL"`. -/
def lobbyL : LobbyClass :=
  { name := "The Lobby", gm_id := "gm1",
    players := [{ userId := "p1", nickname := "Nick", characterId := none }],
    relatedPresets := [] }

/-- A store holding `lobbyL` and the user behind `"p1"`. -/
def dbLobbyL : DB :=
  { dbEmpty with
      lobbies := fun id => if id = "lobbyL" then some lobbyL else none,
      users := fun id => if id = "p1" then some { handle := "p1handle" } else none }

/-! ## Decoder for decimal numerals, used to prove session ids distinct -/

/-- Numeric value of a decimal digit character. -/
def decDigitVal (c : Char) : Nat :=
  c.toNat - 48

/-- Value of a most-significant-first decimal digit string. -/
def valOfDigits (l : List Char) : Nat :=
  l.foldl (fun a c => 10 * a + decDigitVal c) 0

/-! ## Association-list map lemmas -/

theorem mget_mset_self {α : Type} (m : List (String × α)) (k : String) (v : α) :
    mget (mset m k v) k = some v := by
  induction m with
  | nil => simp [mget, mset]
  | cons p rest ih =>
    obtain ⟨k1, v1⟩ := p
    by_cases h : k1 = k
    · subst h
      simp [mget, mset]
    · simp only [mset, beq_iff_eq, h, if_false]
      simpa [mget, h] using ih

theorem mget_mdel_self {α : Type} (m : List (String × α)) (k : String) :
    mget (mdel m k) k = none := by
  induction m with
  | nil => simp [mget, mdel]
  | cons p rest ih =>
    obtain ⟨k1, v1⟩ := p
    by_cases h : k1 = k
    · subst h
      simp [mget, mdel] at ih ⊢
    · simp [mget, mdel, h] at ih ⊢

theorem mdel_mdel {α : Type} (m : List (String × α)) (k : String) :
    mdel (mdel m k) k = mdel m k := by
  simp [mdel, List.filter_filter]

theorem mset_mset_self {α : Type} (m : List (String × α)) (k : String) (v w : α) :
    mset (mset m k v) k w = mset m k w := by
  induction m with
  | nil => simp [mset]
  | cons p rest ih =>
    obtain ⟨k1, v1⟩ := p
    by_cases h : k1 = k
    · subst h
      simp [mset]
    · simp [mset, h, ih]

/-! ## Decimal numeral lemmas -/

theorem toDigitsCore_append (b : Nat) :
    ∀ (fuel n : Nat) (ds : List Char),
      Nat.toDigitsCore b fuel n ds = Nat.toDigitsCore b fuel n [] ++ ds := by
  intro fuel
  induction fuel with
  | zero => intro n ds; simp [Nat.toDigitsCore]
  | succ f ih =>
    intro n ds
    simp only [Nat.toDigitsCore]
    by_cases h : n / b = 0
    · simp [h]
    · simp only [h, if_false]
      rw [ih (n / b) (Nat.digitChar (n % b) :: ds), ih (n / b) [Nat.digitChar (n % b)],
        List.append_assoc, List.singleton_append]

theorem decDigitVal_digitChar (k : Nat) (h : k < 10) :
    decDigitVal (Nat.digitChar k) = k := by
  interval_cases k <;> rfl

theorem valOfDigits_toDigitsCore :
    ∀ (fuel n : Nat), n < fuel → valOfDigits (Nat.toDigitsCore 10 fuel n []) = n := by
  intro fuel
  induction fuel with
  | zero => intro n hn; omega
  | succ f ih =>
    intro n hn
    simp only [Nat.toDigitsCore]
    by_cases h : n / 10 = 0
    · have hlt : n < 10 := (Nat.div_eq_zero_iff (by decide : 0 < 10)).mp h
      rw [if_pos h]
      unfold valOfDigits
      rw [List.foldl_cons, List.foldl_nil,
        decDigitVal_digitChar (n % 10) (Nat.mod_lt n (by decide))]
      omega
    · have hpos : 0 < n := by
        rcases Nat.eq_zero_or_pos n with h0 | h0
        · subst h0; simp at h
        · exact h0
      have hdivlt : n / 10 < f := by
        have := Nat.div_lt_self hpos (by decide : 1 < 10)
        omega
      rw [if_neg h, toDigitsCore_append 10 f (n / 10) [Nat.digitChar (n % 10)]]
      have hv := ih (n / 10) hdivlt
      unfold valOfDigits at hv ⊢
      rw [List.foldl_append, hv, List.foldl_cons, List.foldl_nil,
        decDigitVal_digitChar (n % 10) (Nat.mod_lt n (by decide))]
      omega

theorem natToString_injective {m n : Nat} (h : toString m = toString n) : m = n := by
  have h2 : Nat.repr m = Nat.repr n := h
  have h3 : Nat.toDigits 10 m = Nat.toDigits 10 n := congrArg String.data h2
  have h4 : Nat.toDigitsCore 10 (m + 1) m [] = Nat.toDigitsCore 10 (n + 1) n [] := h3
  have hm := valOfDigits_toDigitsCore (m + 1) m (Nat.lt_succ_self m)
  have hn := valOfDigits_toDigitsCore (n + 1) n (Nat.lt_succ_self n)
  rw [← hm, ← hn, h4]

/-! ## Cooking-pipeline lemmas -/

theorem cookFieldPawnsFromDB_missing (db : DB) :
    ∀ (field : List PresetPawn) (acc : GamePreset),
      (∃ pawn ∈ field, pawn.source = Source.embedded ∧
        DatabaseService.getEntity db pawn.path = none) →
      cookFieldPawnsFromDB db field acc = Except.error (Err.NotFound "Entity not found") := by
  intro field
  induction field with
  | nil => intro acc h; simp at h
  | cons p rest ih =>
    intro acc h
    obtain ⟨pawn, hmem, hsrc, hent⟩ := h
    rcases List.mem_cons.mp hmem with hp | hp
    · subst hp
      simp only [cookFieldPawnsFromDB, hsrc, hent]
    · rcases hps : p.source with _ | _
      · simp only [cookFieldPawnsFromDB, hps]
        exact ih _ ⟨pawn, hp, hsrc, hent⟩
      · rcases hpe : DatabaseService.getEntity db p.path with _ | e
        · simp only [cookFieldPawnsFromDB, hps, hpe]
        · simp only [cookFieldPawnsFromDB, hps, hpe]
          exact ih _ ⟨pawn, hp, hsrc, hent⟩

theorem cookFieldPawnsFromRequest_missing (db : DB) :
    ∀ (field : List (String × RequestPawn)) (acc : GamePreset),
      (∃ e ∈ field, e.2.source = Source.embedded ∧
        DatabaseService.getEntity db e.2.path = none) →
      cookFieldPawnsFromRequest db field acc =
        Except.error (Err.NotFound "Entity not found") := by
  intro field
  induction field with
  | nil => intro acc h; simp at h
  | cons p rest ih =>
    intro acc h
    obtain ⟨entry, hmem, hsrc, hent⟩ := h
    obtain ⟨square, pawn⟩ := p
    rcases List.mem_cons.mp hmem with hp | hp
    · subst hp
      dsimp only at hsrc hent
      simp only [cookFieldPawnsFromRequest, hsrc, hent]
    · rcases hps : pawn.source with _ | _
      · simp only [cookFieldPawnsFromRequest, hps]
        exact ih _ ⟨entry, hp, hsrc, hent⟩
      · rcases hpe : DatabaseService.getEntity db pawn.path with _ | e
        · simp only [cookFieldPawnsFromRequest, hps, hpe]
        · simp only [cookFieldPawnsFromRequest, hps, hpe]
          exact ih _ ⟨entry, hp, hsrc, hent⟩

theorem checkOccupiedSquares_dup :
    ∀ (field : List PresetPawn) (occupied : List String),
      occupied.Nodup → ¬ (occupied ++ field.map PresetPawn.square).Nodup →
      checkOccupiedSquares field occupied =
        Except.error (Err.BadRequest "Multiple pawns on the same square") := by
  intro field
  induction field with
  | nil =>
    intro occupied hocc hdup
    simp at hdup
    exact absurd hocc hdup
  | cons p rest ih =>
    intro occupied hocc hdup
    by_cases hc : occupied.contains p.square
    · simp only [checkOccupiedSquares, hc, if_true]
    · simp only [checkOccupiedSquares, hc, if_false]
      have hnm : p.square ∉ occupied := by
        intro hmem
        exact hc (List.elem_iff.mpr hmem)
      refine ih (occupied ++ [p.square]) ?_ ?_
      · refine List.nodup_append.mpr ⟨hocc, List.nodup_singleton _, ?_⟩
        intro a ha hb
        rw [List.mem_singleton] at hb
        subst hb
        exact hnm ha
      · intro hnd
        apply hdup
        have heq : occupied ++ List.map PresetPawn.square (p :: rest) =
            (occupied ++ [p.square]) ++ rest.map PresetPawn.square := by
          rw [List.map_cons, List.append_assoc, List.singleton_append]
        rw [heq]
        exact hnd

/-! ## Registry / lobby-index lemmas -/

theorem onDeleted_cm (st : ServerState) (lobby_id combatId : String) :
    (LobbyService.onDeleted st lobby_id combatId).cm = st.cm := by
  unfold LobbyService.onDeleted
  rcases hm : mget st.managingCombats lobby_id with _ | combats <;> simp

/-- What `LobbyService.createCombat` returns: the registry's next id. -/
theorem createCombat_returns (st : ServerState) (lobby_id combatNickname : String)
    (preset : GamePreset) (gm_id : String) (players : List String) :
    (LobbyService.createCombat st lobby_id combatNickname preset gm_id players).1 =
      some (toString st.cm.managedSoFar) := by
  simp [LobbyService.createCombat, mget_mset_self, CombatManager.createCombat]

theorem createCombat_managedSoFar (st : ServerState) (lobby_id combatNickname : String)
    (preset : GamePreset) (gm_id : String) (players : List String) :
    ((LobbyService.createCombat st lobby_id combatNickname preset gm_id
        players).2).cm.managedSoFar = st.cm.managedSoFar + 1 := by
  simp [LobbyService.createCombat, mget_mset_self, CombatManager.createCombat]

theorem managedSoFar_le_stepOp (verify : String → Option String) (st : ServerState)
    (op : Op) : st.cm.managedSoFar ≤ (stepOp verify st op).cm.managedSoFar := by
  cases op with
  | create lobby_id nick preset gm_id players =>
    simp [stepOp, LobbyService.createCombat, mget_mset_self, CombatManager.createCombat]
  | remove lobby_id combat_id =>
    simp [stepOp, removeSelf, onDeleted_cm, CombatManager.deleteFromIndex]
  | attemptSocket combat_id userToken socket =>
    rcases hg : CombatManager.get st.cm combat_id with _ | c
    · simp [stepOp, LobbyService.manageSocket, hg]
    · rcases hv : verify userToken with _ | uid
      · simp [stepOp, LobbyService.manageSocket, hg, hv]
      · by_cases hp : c.isPlayerInCombat uid <;>
          simp [stepOp, LobbyService.manageSocket, hg, hv, hp]

theorem managedSoFar_le_runOps (verify : String → Option String) :
    ∀ (ops : List Op) (st : ServerState),
      st.cm.managedSoFar ≤ (runOps verify ops st).cm.managedSoFar := by
  intro ops
  induction ops with
  | nil => intro st; exact Nat.le_refl _
  | cons op rest ih =>
    intro st
    exact Nat.le_trans (managedSoFar_le_stepOp verify st op) (ih (stepOp verify st op))

/-- Sanity check on the fixtures: `stOne` is exactly the state one
`createCombat` call produces from the initial state, so the witness states
below are states the services actually build. -/
theorem stOne_from_create :
    (LobbyService.createCombat stEmpty "lobbyA" "Duel" gpEmpty "gm1" ["p1"]).2 = stOne :=
  rfl

/-! ## Claim theorems -/

/-- C2, counterexample: the claim says that for every preset in which two
pawns claim the same square, cooking fails with a ClientFault error in
both modes.  Here is a stored preset whose two pawns both claim `A1`, yet
`cookPresetFromDB` succeeds: the importable path performs no duplicate
check, the second pawn simply overwrites the first under the shared key. -/
theorem claim_C2_counterexample :
    ¬ (presetDup.field.map PresetPawn.square).Nodup ∧
    cookPresetFromDB dbDup "dup" = Except.ok (some gpDup) := by
  constructor
  · decide
  · rfl

/-- C2, amended: duplicate-square rejection lives in
`DatabaseService.createNewCombatPreset`, not in the cooking pipeline: for
every pawn list in which two pawns claim the same square, creating the
preset fails with the ClientFault error `BadRequest "Multiple pawns on the
same square"` (and so no such preset is persisted); `cookPresetFromDB`
itself does not re-check, and in the requested mode the input is keyed by
square, so a duplicate square is unrepresentable. -/
theorem claim_C2_creation_rejects_duplicate_squares (field : List PresetPawn)
    (h : ¬ (field.map PresetPawn.square).Nodup) :
    DatabaseService.createNewCombatPreset field =
      Except.error (Err.BadRequest "Multiple pawns on the same square") := by
  have hchk := checkOccupiedSquares_dup field [] List.nodup_nil (by simpa using h)
  unfold DatabaseService.createNewCombatPreset
  rw [hchk]
  rfl

/-- C2, witness: the amended theorem applied to a concrete two-pawn field
sharing square `A1`. -/
theorem claim_C2_witness :
    DatabaseService.createNewCombatPreset [pawnDupA, pawnDupB] =
      Except.error (Err.BadRequest "Multiple pawns on the same square") :=
  claim_C2_creation_rejects_duplicate_squares [pawnDupA, pawnDupB] (by decide)

/-- C5: for every pawn whose source is embedded and whose referenced
entity definition is absent in storage, cooking fails with
`NotFound "Entity not found"`, in both the importable (`cookPresetFromDB`)
and the requested (`cookPresetFromRequest`) mode. -/
theorem claim_C5_embedded_missing_entity (db : DB) (pid : String) (preset : CombatClass)
    (reqField : List (String × RequestPawn))
    (h1 : DatabaseService.getCombatPreset db pid = some preset)
    (h2 : ∃ pawn ∈ preset.field, pawn.source = Source.embedded ∧
      DatabaseService.getEntity db pawn.path = none)
    (h3 : ∃ e ∈ reqField, e.2.source = Source.embedded ∧
      DatabaseService.getEntity db e.2.path = none) :
    cookPresetFromDB db pid = Except.error (Err.NotFound "Entity not found") ∧
    cookPresetFromRequest db reqField = Except.error (Err.NotFound "Entity not found") := by
  constructor
  · unfold cookPresetFromDB
    rw [h1]
    dsimp only
    rw [cookFieldPawnsFromDB_missing db preset.field _ h2]
    rfl
  · unfold cookPresetFromRequest
    exact cookFieldPawnsFromRequest_missing db reqField _ h3

/-- C5, witness: a stored and an inline preset each holding one embedded
pawn referencing entity `"ghost"`, absent from the store. -/
theorem claim_C5_witness :
    cookPresetFromDB dbGhost "gpre" = Except.error (Err.NotFound "Entity not found") ∧
    cookPresetFromRequest dbGhost reqGhost =
      Except.error (Err.NotFound "Entity not found") :=
  claim_C5_embedded_missing_entity dbGhost "gpre" presetGhost reqGhost rfl
    ⟨pawnGhost, show pawnGhost ∈ [pawnGhost] from List.mem_singleton.mpr rfl, rfl, rfl⟩
    ⟨("B2", { path := "ghost", source := Source.embedded,
              controlledBy := ControlInfo.game_logic }),
      List.mem_singleton.mpr rfl, rfl, rfl⟩

/-- C8: for every identifier, each storage lookup (`getLobby`, `getUser`,
`getCharacter`, `getCombatPreset`) returns `none` for an absent document
rather than throwing — the embedded operations are total and propagate the
store's `null`. -/
theorem claim_C8_lookups_null_for_absent (db : DB) (id : String) :
    (db.lobbies id = none → DatabaseService.getLobby db id = none) ∧
    (db.users id = none → DatabaseService.getUser db id = none) ∧
    (db.characters id = none → DatabaseService.getCharacter db id = none) ∧
    (db.combatPresets id = none → DatabaseService.getCombatPreset db id = none) := by
  refine ⟨?_, fun h => h, fun h => h, fun h => h⟩
  intro h
  unfold DatabaseService.getLobby
  by_cases hid : id = "" <;> simp [hid, h]

/-- C8, witness: the lookups on an empty store all resolve to `none`. -/
theorem claim_C8_witness :
    DatabaseService.getLobby dbEmpty "someId" = none ∧
    DatabaseService.getUser dbEmpty "someId" = none ∧
    DatabaseService.getCharacter dbEmpty "someId" = none ∧
    DatabaseService.getCombatPreset dbEmpty "someId" = none := by
  have h := claim_C8_lookups_null_for_absent dbEmpty "someId"
  exact ⟨h.1 rfl, h.2.1 rfl, h.2.2.1 rfl, h.2.2.2 rfl⟩

/-- C1: when a session's removal callback (`removeSelf`) is invoked, the
session is deleted from the registry's index before the caller-supplied
cleanup hook runs — `get` already fails on the intermediate state — and
after the callback completes, `get` resolves to absent and the owning
lobby's active-combat list no longer contains the id.  The hypothesis
(the id occurs at most once in the lobby's list) holds for every state the
services build, since each pushed id is freshly allocated. -/
theorem claim_C1_removal_consistency (st : ServerState) (lobby_id combat_id : String)
    (h : (LobbyService.getActiveCombats st lobby_id).count combat_id ≤ 1) :
    CombatManager.get (CombatManager.deleteFromIndex st combat_id).cm combat_id = none ∧
    CombatManager.get (removeSelf st lobby_id combat_id).cm combat_id = none ∧
    combat_id ∉ LobbyService.getActiveCombats (removeSelf st lobby_id combat_id) lobby_id := by
  obtain ⟨⟨cmb, n⟩, managing⟩ := st
  refine ⟨mget_mdel_self _ _, ?_, ?_⟩
  · unfold removeSelf LobbyService.onDeleted CombatManager.deleteFromIndex CombatManager.get
    rcases hm : mget managing lobby_id with _ | combats <;> simp [hm, mget_mdel_self]
  · unfold removeSelf LobbyService.onDeleted CombatManager.deleteFromIndex
      LobbyService.getActiveCombats
    unfold LobbyService.getActiveCombats at h
    rcases hm : mget managing lobby_id with _ | combats
    · simp [hm]
    · simp only [hm] at h ⊢
      simp only [Option.getD_some] at h
      have h0 : (combats.erase combat_id).count combat_id = 0 := by
        rw [List.count_erase_self]
        omega
      simp [mget_mset_self]
      exact List.not_mem_of_count_eq_zero h0

/-- C1, witness: the consistency conclusions evaluated on the state that
holds one session `"0"` owned by `"lobbyA"`. -/
theorem claim_C1_witness :
    CombatManager.get (CombatManager.deleteFromIndex stOne "0").cm "0" = none ∧
    CombatManager.get (removeSelf stOne "lobbyA" "0").cm "0" = none ∧
    "0" ∉ LobbyService.getActiveCombats (removeSelf stOne "lobbyA" "0") "lobbyA" :=
  claim_C1_removal_consistency stOne "lobbyA" "0" (by decide)

/-- C10: the removal callback is idempotent — invoking it a second time
leaves the registry map and the lobby's combat list exactly as after the
first invocation (`Map.delete` of an absent key is a no-op and the splice
is guarded by the `indexOf` check).  As in C1, the hypothesis rules out an
id duplicated in the lobby list, which the services never produce. -/
theorem claim_C10_removal_idempotent (st : ServerState) (lobby_id combat_id : String)
    (h : (LobbyService.getActiveCombats st lobby_id).count combat_id ≤ 1) :
    removeSelf (removeSelf st lobby_id combat_id) lobby_id combat_id =
      removeSelf st lobby_id combat_id := by
  obtain ⟨⟨cmb, n⟩, managing⟩ := st
  unfold LobbyService.getActiveCombats at h
  unfold removeSelf LobbyService.onDeleted CombatManager.deleteFromIndex
  rcases hm : mget managing lobby_id with _ | combats
  · simp [hm, mdel_mdel]
  · simp only [hm, Option.getD_some] at h ⊢
    have hx : (combats.erase combat_id).erase combat_id = combats.erase combat_id :=
      List.erase_of_not_mem (List.not_mem_of_count_eq_zero
        (by rw [List.count_erase_self]; omega))
    simp [mget_mset_self, mset_mset_self, mdel_mdel, hx]

/-- C10, witness: firing the callback twice on the one-session state
equals firing it once. -/
theorem claim_C10_witness :
    removeSelf (removeSelf stOne "lobbyA" "0") "lobbyA" "0" =
      removeSelf stOne "lobbyA" "0" :=
  claim_C10_removal_idempotent stOne "lobbyA" "0" (by decide)

/-- C9: `LobbyService.createCombat` never returns null — it always returns
the session id the registry allocated (`managedSoFar` stringified),
because the lobby's combat list is set before it is looked up, so the
`null` branch is unreachable. -/
theorem claim_C9_createCombat_never_null (st : ServerState)
    (lobby_id combatNickname : String) (preset : GamePreset) (gm_id : String)
    (players : List String) :
    (LobbyService.createCombat st lobby_id combatNickname preset gm_id players).1 =
      some (toString st.cm.managedSoFar) :=
  createCombat_returns st lobby_id combatNickname preset gm_id players

/-- C6: session ids are the registry's monotonically increasing counter
converted to a string, so the id returned by one create call differs from
the id returned by any later create call on the same registry, whatever
operations — including session removals — happen in between: ids are never
reused while the registry lives. -/
theorem claim_C6_ids_never_reused (verify : String → Option String) (st : ServerState)
    (l1 n1 : String) (p1 : GamePreset) (g1 : String) (pl1 : List String)
    (ops : List Op)
    (l2 n2 : String) (p2 : GamePreset) (g2 : String) (pl2 : List String) :
    (LobbyService.createCombat st l1 n1 p1 g1 pl1).1 ≠
      (LobbyService.createCombat
        (runOps verify ops (LobbyService.createCombat st l1 n1 p1 g1 pl1).2)
        l2 n2 p2 g2 pl2).1 := by
  rw [createCombat_returns, createCombat_returns]
  intro heq
  have hmn := natToString_injective (Option.some.inj heq)
  have hle := managedSoFar_le_runOps verify ops (LobbyService.createCombat st l1 n1 p1 g1 pl1).2
  rw [createCombat_managedSoFar] at hle
  omega

/-- C3, counterexample: the claim says every admission attempt carrying an
invalid access token receives the `"invalid_token"` signal before being
disconnected.  But the session lookup runs first: an attempt with an
invalid token against an unresolvable session id is disconnected with no
events emitted at all (the attach operation is still never called). -/
theorem claim_C3_counterexample :
    verifyNone "badtoken" = none ∧
    LobbyService.manageSocket verifyNone stEmpty 3 "0" "badtoken" =
      { emitted := [], disconnected := true, attached := false, st := stEmpty } :=
  ⟨rfl, rfl⟩

/-- C3, amended: for every admission attempt whose session id resolves and
whose access token is invalid, the connection receives the explicit
`"invalid_token"` signal and is disconnected, the attach operation
(`handlePlayer`) is never called, and the state is untouched; when the
session id does not resolve, the connection is disconnected without the
signal (and is still never attached). -/
theorem claim_C3_invalid_token_rejected (verify : String → Option String)
    (st : ServerState) (socket : Nat) (combat_id userToken : String)
    (c : CombatConnection)
    (h1 : CombatManager.get st.cm combat_id = some c)
    (h2 : verify userToken = none) :
    LobbyService.manageSocket verify st socket combat_id userToken =
      { emitted := ["invalid_token"], disconnected := true, attached := false, st := st } := by
  unfold LobbyService.manageSocket
  rw [h1, h2]

/-- C3, witness: an invalid token against the live session `"0"`. -/
theorem claim_C3_witness :
    LobbyService.manageSocket verifyNone stOne 3 "0" "badtoken" =
      { emitted := ["invalid_token"], disconnected := true, attached := false, st := stOne } :=
  claim_C3_invalid_token_rejected verifyNone stOne 3 "0" "badtoken" sessionIdle rfl rfl

/-- C4: an admission attempt with a valid token by a player not currently
connected to the resolved session attaches via `handlePlayer`; a second
attempt for the same player on the same session while the first is
attached is rejected and its connection disconnected, the state is
unchanged by the second attempt, and the first connection remains the
player's live channel. -/
theorem claim_C4_single_connection_per_player (verify : String → Option String)
    (st : ServerState) (s1 s2 : Nat) (combat_id userToken user_id : String)
    (c : CombatConnection)
    (h1 : CombatManager.get st.cm combat_id = some c)
    (h2 : verify userToken = some user_id)
    (h3 : c.isPlayerInCombat user_id = false) :
    (LobbyService.manageSocket verify st s1 combat_id userToken).attached = true ∧
    (LobbyService.manageSocket verify st s1 combat_id userToken).disconnected = false ∧
    CombatManager.get (LobbyService.manageSocket verify st s1 combat_id userToken).st.cm
        combat_id = some (c.handlePlayer user_id s1) ∧
    mget (c.handlePlayer user_id s1).connections user_id = some s1 ∧
    (LobbyService.manageSocket verify
        (LobbyService.manageSocket verify st s1 combat_id userToken).st
        s2 combat_id userToken).attached = false ∧
    (LobbyService.manageSocket verify
        (LobbyService.manageSocket verify st s1 combat_id userToken).st
        s2 combat_id userToken).disconnected = true ∧
    (LobbyService.manageSocket verify
        (LobbyService.manageSocket verify st s1 combat_id userToken).st
        s2 combat_id userToken).st =
      (LobbyService.manageSocket verify st s1 combat_id userToken).st := by
  have e1 : LobbyService.manageSocket verify st s1 combat_id userToken =
      { emitted := [],
        disconnected := false,
        attached := true,
        st := { cm := { combats := mset st.cm.combats combat_id
                          (c.handlePlayer user_id s1),
                        managedSoFar := st.cm.managedSoFar },
                managingCombats := st.managingCombats } } := by
    unfold LobbyService.manageSocket
    rw [h1, h2]
    simp [h3]
  have hget : CombatManager.get
      (LobbyService.manageSocket verify st s1 combat_id userToken).st.cm combat_id =
      some (c.handlePlayer user_id s1) := by
    rw [e1]
    exact mget_mset_self _ _ _
  have hin : (c.handlePlayer user_id s1).isPlayerInCombat user_id = true := by
    unfold CombatConnection.isPlayerInCombat CombatConnection.handlePlayer
    rw [mget_mset_self]
    rfl
  have e2 : LobbyService.manageSocket verify
      (LobbyService.manageSocket verify st s1 combat_id userToken).st
      s2 combat_id userToken =
      { emitted := [], disconnected := true, attached := false,
        st := (LobbyService.manageSocket verify st s1 combat_id userToken).st } := by
    rw [e1]
    unfold LobbyService.manageSocket CombatManager.get
    simp [mget_mset_self, h2, hin]
  exact ⟨by rw [e1], by rw [e1], hget, mget_mset_self _ _ _,
    by rw [e2], by rw [e2], by rw [e2]⟩

/-- C4, witness: player `"p1"` attaches to session `"0"` with socket 7;
the duplicate attempt with socket 8 is rejected while socket 7 stays the
live channel. -/
theorem claim_C4_witness :
    (LobbyService.manageSocket verifyOne stOne 7 "0" "tok1").attached = true ∧
    (LobbyService.manageSocket verifyOne stOne 7 "0" "tok1").disconnected = false ∧
    CombatManager.get (LobbyService.manageSocket verifyOne stOne 7 "0" "tok1").st.cm
        "0" = some (sessionIdle.handlePlayer "p1" 7) ∧
    mget (sessionIdle.handlePlayer "p1" 7).connections "p1" = some 7 ∧
    (LobbyService.manageSocket verifyOne
        (LobbyService.manageSocket verifyOne stOne 7 "0" "tok1").st
        8 "0" "tok1").attached = false ∧
    (LobbyService.manageSocket verifyOne
        (LobbyService.manageSocket verifyOne stOne 7 "0" "tok1").st
        8 "0" "tok1").disconnected = true ∧
    (LobbyService.manageSocket verifyOne
        (LobbyService.manageSocket verifyOne stOne 7 "0" "tok1").st
        8 "0" "tok1").st =
      (LobbyService.manageSocket verifyOne stOne 7 "0" "tok1").st :=
  claim_C4_single_connection_per_player verifyOne stOne 7 8 "0" "tok1" "p1" sessionIdle
    rfl rfl rfl

/-- C7: the lobby-info aggregation does NOT produce an entry for each live
session recorded in the lobby's combat list.  `getLobbyInfo` iterates the
list with a `for..in` loop, which enumerates array index strings, and
passes the index — not the stored id — to `CombatManager.get`.  In the
state where lobby `"lobbyL"` lists exactly the live session `"1"` (session
`"0"` of another lobby having been removed), the aggregation looks up
index `"0"`, finds nothing, and reports no combats at all, although the
claim requires an entry with session `"1"`'s nickname, active flag, round
count and connected players. -/
theorem claim_C7_aggregation_misses_listed_session :
    LobbyService.getActiveCombats stTwoLobbies "lobbyL" = ["1"] ∧
    CombatManager.get stTwoLobbies.cm "1" = some sessionBoss ∧
    (LobbyService.getLobbyInfo stTwoLobbies dbLobbyL "lobbyL" "u9" none).combats = [] := by
  refine ⟨rfl, rfl, ?_⟩
  rfl

end WLC
